import Mathlib

/-!
Verification of the EmotionCV backend core pipeline (`backend/ml_pipeline.py`
and the emergency decision in `backend/app.py`), shallowly embedded in Lean.

Modelling conventions:
* Python floats are modelled as exact rationals (`ℚ`); `round(x, 3)` is
  modelled by `round3`, using Mathlib `round` (round-half-up), the rounding
  rule we fix for the model.
* Python dicts of emotion scores are association lists `List (String × ℚ)`
  in insertion order; `dict.get(k, 0)` is `dget`.
* Python `kw in text` (substring containment) is `kwIn`, and
  `text.lower()` is `strLower` (per-character lowering).
* The fallible OpenAI call is a parameter `String → Except String String`;
  a raised exception is `Except.error`, an unconfigured client is `none`.
  Functions that can raise to the caller return `Option`.
-/

namespace EmotionCV

/-- Model of `round(x, 3)`: round to 3 decimal digits (round-half-up). -/
def round3 (q : ℚ) : ℚ := ((round (q * 1000) : ℤ) : ℚ) / 1000

/-- An emotion-score dictionary in insertion order. -/
abbrev EDist := List (String × ℚ)

/-- Model of `scores.get(emotion, 0)`: lookup with default 0. -/
def dget (d : EDist) (k : String) : ℚ := (List.lookup k d).getD 0

/-- `self.EMOTION_LABELS` from `MLPipeline.__init__`. -/
def EMOTION_LABELS : List String :=
  ["anger", "fear", "disgust", "happy", "neutral", "sad", "surprise"]

/-- Model of Python `s.lower()`: per-character lowering (structural, so
concrete instances evaluate by kernel reduction). -/
def strLower (s : String) : String := ⟨s.data.map Char.toLower⟩

/-- Substring containment on character lists: `containsSub n h` is true
iff `n` occurs contiguously inside `h` (models Python `n in h`). -/
def containsSub (needle : List Char) : List Char → Bool
  | [] => needle.isEmpty
  | c :: rest => needle.isPrefixOf (c :: rest) || containsSub needle rest

/-- Model of Python `kw in hay` on strings. -/
def kwIn (kw hay : String) : Bool := containsSub kw.data hay.data

/-- The dictionary returned by `MLPipeline.assess_risk`. -/
structure RiskReport where
  self_harm_risk : ℚ
  severe_stress_risk : ℚ
  triggers_found : ℕ
  assessment : String
  deriving DecidableEq, Repr

/-- `risk_factors["self_harm_keywords"]` in `assess_risk`. -/
def self_harm_keywords : List String :=
  ["kill myself", "end it all", "suicide", "self harm", "hurt myself"]

/-- `risk_factors["distress_keywords"]` in `assess_risk`. -/
def distress_keywords : List String :=
  ["cant take it", "overwhelmed", "hopeless", "helpless", "no point"]

/-- `risk_factors["high_risk_emotions"]` in `assess_risk`. -/
def high_risk_emotions : List String := ["sad", "anger", "fear"]

/-- `MLPipeline.assess_risk(text_input, emotion_scores)` from
`backend/ml_pipeline.py`. The assessment string branches on the
pre-rounding risk values, exactly as in the source. -/
def assess_risk (text_input : String) (emotion_scores : EDist) : RiskReport :=
  let text_lower := strLower text_input
  let self_harm_risk : ℚ :=
    if self_harm_keywords.any (fun k => kwIn k text_lower) then 0.9 else 0.0
  let severe_stress_risk : ℚ :=
    if distress_keywords.any (fun k => kwIn k text_lower) then 0.7 else 0.0
  let high_risk_emotion_score : ℚ :=
    (high_risk_emotions.map (fun e => dget emotion_scores e)).sum
  let severe_stress_risk := max severe_stress_risk (high_risk_emotion_score * 0.8)
  { self_harm_risk := round3 self_harm_risk
    severe_stress_risk := round3 severe_stress_risk
    triggers_found := (self_harm_keywords.filter (fun k => kwIn k text_lower)).length
    assessment :=
      if self_harm_risk > 0.5 then "High risk detected"
      else if severe_stress_risk > 0.3 then "Moderate risk"
      else "Low risk" }

/-- The risk-threshold configuration held in `app.config` (`backend/app.py`). -/
structure AppConfig where
  SELF_HARM_THRESHOLD : ℚ
  SEVERE_STRESS_THRESHOLD : ℚ

/-- The values installed at startup in `backend/app.py`. -/
def defaultConfig : AppConfig := { SELF_HARM_THRESHOLD := 0.8, SEVERE_STRESS_THRESHOLD := 0.7 }

/-- The emergency decision computed inline in `analyze_emotion`
(`backend/app.py`): `self_harm_risk > threshold or severe_stress_risk > threshold`. -/
def emergencyTriggered (cfg : AppConfig) (r : RiskReport) : Bool :=
  decide (r.self_harm_risk > cfg.SELF_HARM_THRESHOLD) ||
    decide (r.severe_stress_risk > cfg.SEVERE_STRESS_THRESHOLD)

/-- `MLPipeline.fuse_emotions(facial_scores, voice_scores, text_scores)`:
weighted average with weights facial 0.4, voice 0.3, text 0.3, each label
rounded to 3 decimals. -/
def fuse_emotions (facial_scores voice_scores text_scores : EDist) : EDist :=
  EMOTION_LABELS.map fun emotion =>
    (emotion, round3 (dget facial_scores emotion * 0.4 +
      dget voice_scores emotion * 0.3 +
      dget text_scores emotion * 0.3))

/-- The distribution that maps each of the seven labels to 0. -/
def zeroDist : EDist := EMOTION_LABELS.map fun emotion => (emotion, 0)

/-- Model of `max(emotion_scores.items(), key=lambda x: x[1])`: a linear scan
keeping the current maximum, replacing it only on a strictly greater score,
so ties resolve to the first maximal item; `none` models the `ValueError`
raised on an empty dict. -/
def maxPair : EDist → Option (String × ℚ)
  | [] => none
  | p :: ps => some (ps.foldl (fun best q => if best.2 < q.2 then q else best) p)

/-- The `responses` table in `MLPipeline._get_fallback_response`. -/
def fallback_responses : List (String × String) :=
  [("happy", "I\x27m glad to see you\x27re feeling positive! Remember to cherish these good moments."),
   ("sad", "I\x27m here with you during this difficult time. Your feelings are valid and important."),
   ("anger", "It\x27s okay to feel angry. Would you like to talk about what\x27s bothering you?"),
   ("fear", "I sense you\x27re feeling anxious. Remember, you\x27re stronger than you think."),
   ("surprise", "Life can be full of surprises. I\x27m here to help you process whatever comes up."),
   ("disgust", "I understand you\x27re feeling upset. Let\x27s work through this together."),
   ("neutral", "I\x27m here to listen whenever you\x27re ready to share. How are you really feeling?")]

/-- The default of `responses.get(...)` in `_get_fallback_response`. -/
def generic_fallback : String :=
  "I\x27m here to listen and support you. How can I help you today?"

/-- `MLPipeline._get_fallback_response(emotion_scores)`: the canned reply for
the dominant emotion; `none` models the `ValueError` on an empty dict. -/
def get_fallback_response (emotion_scores : EDist) : Option String :=
  match maxPair emotion_scores with
  | none => none
  | some dominant_emotion =>
    some ((List.lookup dominant_emotion.1 fallback_responses).getD generic_fallback)

/-- Model of the `"{score:.1%}"` format: percentage with one decimal digit. -/
def fmtPercent (q : ℚ) : String :=
  let n : ℤ := round (q * 1000)
  toString (n / 10) ++ "." ++ toString ((n % 10).natAbs) ++ "%"

/-- The prompt f-string built in `MLPipeline.generate_ai_response` from the
dominant emotion, the summary of emotions scoring above 0.1, and the text. -/
def build_prompt (text_input : String) (emotion_scores : EDist)
    (dominant_emotion : String × ℚ) : String :=
  let emotion_summary := String.intercalate ", "
    ((emotion_scores.filter (fun p => p.2 > 0.1)).map
      (fun p => p.1 ++ ": " ++ fmtPercent p.2))
  "\n            You are EmotionCV, an AI mental health support assistant. \n            User\x27s emotional state: " ++
    emotion_summary ++ "\n            Dominant emotion: " ++ dominant_emotion.1 ++
    " (" ++ fmtPercent dominant_emotion.2 ++ ")\n            \n            User\x27s message: \"" ++
    text_input ++ "\"\n            \n            Provide a supportive, empathetic, and non-judgmental response. \n            Be concise but meaningful. Offer comfort and validation.\n            "

/-- `MLPipeline.generate_ai_response(text_input, emotion_scores)`. The OpenAI
client is `none` when no credential is configured; otherwise it is a function
from the prompt to either the reply text or a raised error. Any exception
inside the `try` (including `max` on an empty dict) routes to the fallback. -/
def generate_ai_response (openai_client : Option (String → Except String String))
    (text_input : String) (emotion_scores : EDist) : Option String :=
  match openai_client with
  | none => get_fallback_response emotion_scores
  | some call =>
    match maxPair emotion_scores with
    | none => get_fallback_response emotion_scores
    | some dominant_emotion =>
      match call (build_prompt text_input emotion_scores dominant_emotion) with
      | Except.ok content => some content.trim
      | Except.error _ => get_fallback_response emotion_scores

/-! ### Helper lemmas -/

lemma round3_zero : round3 0 = 0 := by
  norm_num [round3, round_eq]

lemma round3_one : round3 1 = 1 := by
  norm_num [round3, round_eq]

lemma round3_mono {a b : ℚ} (h : a ≤ b) : round3 a ≤ round3 b := by
  unfold round3
  have h2 : round (a * 1000) ≤ round (b * 1000) := by
    rw [round_eq, round_eq]
    exact Int.floor_le_floor (by linarith)
  have h3 : ((round (a * 1000) : ℤ) : ℚ) ≤ ((round (b * 1000) : ℤ) : ℚ) := by
    exact_mod_cast h2
  linarith

lemma dget_nonneg {d : EDist} (hnn : ∀ p ∈ d, 0 ≤ p.2) (k : String) : 0 ≤ dget d k := by
  induction d with
  | nil => simp [dget, List.lookup]
  | cons p t ih =>
    obtain ⟨a, b⟩ := p
    simp only [dget, List.lookup]
    cases hb : (k == a) with
    | true => simpa using hnn (a, b) (List.mem_cons_self _ _)
    | false =>
      simpa [dget] using ih fun q hq => hnn q (List.mem_cons_of_mem _ hq)

lemma high_risk_sum (fused : EDist) :
    (high_risk_emotions.map fun e => dget fused e).sum =
      dget fused "sad" + dget fused "anger" + dget fused "fear" := by
  simp [high_risk_emotions]
  ring

lemma lookup_map_keys (g : String → ℚ) (keys : List String) (l : String) :
    List.lookup l (keys.map fun e => (e, g e)) =
      if l ∈ keys then some (g l) else none := by
  induction keys with
  | nil => simp [List.lookup]
  | cons a t ih =>
    by_cases h : l = a
    · subst h
      simp [List.lookup]
    · have hba : (l == a) = false := by simp [h]
      simp [List.lookup, hba, ih, List.mem_cons, h]

lemma map_fst_map_keys (g : String → ℚ) (keys : List String) :
    (keys.map fun e => (e, g e)).map Prod.fst = keys := by
  induction keys with
  | nil => simp
  | cons a t ih => simp [ih]

/-! ### Claim theorems -/

/-- C1: for every text and fused distribution, `assess_risk` reports
`self_harm_risk` 0.9 exactly when one of the five self-harm phrases occurs in
the lower-cased text (0.0 otherwise), and `severe_stress_risk` equal to
`max s (0.8 * (sad + anger + fear))` with `s` 0.7 exactly when one of the five
distress phrases occurs (0.0 otherwise), both rounded to 3 decimals. -/
theorem assess_risk_scores_spec (text : String) (fused : EDist) :
    (assess_risk text fused).self_harm_risk =
      (if (kwIn "kill myself" (strLower text) || kwIn "end it all" (strLower text) ||
          kwIn "suicide" (strLower text) || kwIn "self harm" (strLower text) ||
          kwIn "hurt myself" (strLower text)) = true then 0.9 else 0.0) ∧
    (assess_risk text fused).severe_stress_risk =
      round3 (max
        (if (kwIn "cant take it" (strLower text) || kwIn "overwhelmed" (strLower text) ||
            kwIn "hopeless" (strLower text) || kwIn "helpless" (strLower text) ||
            kwIn "no point" (strLower text)) = true then 0.7 else 0.0)
        (0.8 * (dget fused "sad" + dget fused "anger" + dget fused "fear"))) := by
  constructor
  · simp only [assess_risk, self_harm_keywords, List.any_cons, List.any_nil, Bool.or_false,
      Bool.or_assoc]
    split_ifs with h1 <;> norm_num [round3, round_eq]
  · simp only [assess_risk, distress_keywords, List.any_cons, List.any_nil, Bool.or_false,
      Bool.or_assoc, high_risk_sum]
    rw [mul_comm]

/-- C10: the report of `assess_risk` has `triggers_found ≥ 1` exactly when
`self_harm_risk = 0.9`, both being derived from the presence of the same five
self-harm phrases in the lower-cased text. -/
theorem assess_risk_triggers_iff_self_harm (text : String) (fused : EDist) :
    1 ≤ (assess_risk text fused).triggers_found ↔
      (assess_risk text fused).self_harm_risk = 0.9 := by
  simp only [assess_risk]
  cases h : self_harm_keywords.any fun k => kwIn k (strLower text) with
  | true =>
    apply iff_of_true
    · obtain ⟨k, hk, hpk⟩ := List.any_eq_true.mp h
      exact List.length_pos_of_mem (List.mem_filter.mpr ⟨hk, by simpa using hpk⟩)
    · simp only [h]
      norm_num [round3, round_eq]
  | false =>
    apply iff_of_false
    · have hfil : (self_harm_keywords.filter fun k => kwIn k (strLower text)) = [] := by
        refine List.filter_eq_nil_iff.mpr fun a ha hpa => ?_
        have htrue : (self_harm_keywords.any fun k => kwIn k (strLower text)) = true :=
          List.any_eq_true.mpr ⟨a, ha, hpa⟩
        simp [htrue] at h
      simp [hfil]
    · simp only [h, Bool.false_eq_true, if_false]
      norm_num [round3, round_eq]

/-- C2: with the default thresholds 0.8 and 0.7, the emergency decision of
`analyze_emotion` is exactly `(self_harm_risk > 0.8) or
(severe_stress_risk > 0.7)`, a function of the risk report and the
thresholds only; in particular it fires whenever `self_harm_risk = 0.9`, and
whenever `self_harm_risk = 0` with `severe_stress_risk = 0.75`. -/
theorem emergency_triggered_spec (r : RiskReport) :
    (emergencyTriggered defaultConfig r = true ↔
      (r.self_harm_risk > 0.8 ∨ r.severe_stress_risk > 0.7)) ∧
    (r.self_harm_risk = 0.9 → emergencyTriggered defaultConfig r = true) ∧
    (r.self_harm_risk = 0 → r.severe_stress_risk = 0.75 →
      emergencyTriggered defaultConfig r = true) := by
  refine ⟨?_, ?_, ?_⟩
  · simp [emergencyTriggered, defaultConfig]
  · intro h
    simp [emergencyTriggered, defaultConfig, h]
    norm_num
  · intro h1 h2
    simp [emergencyTriggered, defaultConfig, h1, h2]
    norm_num

theorem emergency_triggered_spec_witness :
    emergencyTriggered defaultConfig
      { self_harm_risk := 0, severe_stress_risk := 0.75,
        triggers_found := 0, assessment := "Low risk" } = true :=
  (emergency_triggered_spec
    { self_harm_risk := 0, severe_stress_risk := 0.75,
      triggers_found := 0, assessment := "Low risk" }).2.2 rfl rfl

/-- C3: `fuse_emotions` returns a distribution keyed by exactly the seven
labels in order; each label maps to `facial*0.4 + voice*0.3 + text*0.3`
rounded to 3 decimals, a key missing from an input is read as 0, and the
function is total (no input errors). -/
theorem fuse_emotions_spec (f v t : EDist) :
    ((fuse_emotions f v t).map Prod.fst = EMOTION_LABELS) ∧
    (∀ l : String, List.lookup l (fuse_emotions f v t) =
      if l ∈ EMOTION_LABELS then
        some (round3 (dget f l * 0.4 + dget v l * 0.3 + dget t l * 0.3))
      else none) ∧
    (∀ (d : EDist) (l : String), List.lookup l d = none → dget d l = 0) := by
  refine ⟨?_, ?_, ?_⟩
  · exact map_fst_map_keys _ EMOTION_LABELS
  · intro l
    exact lookup_map_keys
      (fun e => round3 (dget f e * 0.4 + dget v e * 0.3 + dget t e * 0.3))
      EMOTION_LABELS l
  · intro d l h
    simp [dget, h]

theorem fuse_emotions_spec_witness : dget ([] : EDist) "sad" = 0 :=
  (fuse_emotions_spec [] [] []).2.2 [] "sad" rfl

/-- C9: if all three inputs map every label to zero, `fuse_emotions` returns
the distribution mapping each of the seven labels to zero (no error, not a
uniform distribution). -/
theorem fuse_emotions_all_zero (f v t : EDist)
    (hf : ∀ l, dget f l = 0) (hv : ∀ l, dget v l = 0) (ht : ∀ l, dget t l = 0) :
    fuse_emotions f v t = zeroDist := by
  simp [fuse_emotions, zeroDist, hf, hv, ht, round3_zero]

theorem fuse_emotions_all_zero_witness : fuse_emotions [] [] [] = zeroDist :=
  fuse_emotions_all_zero [] [] [] (fun _ => rfl) (fun _ => rfl) (fun _ => rfl)

/-- C4 counterexample: at text `""` and fused `sad = 0.3755` the report has
`severe_stress_risk = 0.3` (the unrounded 0.3004 rounds down) yet assessment
`"Moderate risk"`, so the assessment is not the stated function of the
rounded report fields. -/
theorem assess_risk_assessment_rounded_counterexample :
    ¬ ((assess_risk "" [("sad", 0.3755)]).assessment =
      (if (assess_risk "" [("sad", 0.3755)]).self_harm_risk > 0.5 then "High risk detected"
       else if (assess_risk "" [("sad", 0.3755)]).severe_stress_risk > 0.3 then "Moderate risk"
       else "Low risk")) := by
  have hsh : (self_harm_keywords.any fun k => kwIn k (strLower "")) = false := by decide
  have hds : (distress_keywords.any fun k => kwIn k (strLower "")) = false := by decide
  have hfil : (self_harm_keywords.filter fun k => kwIn k (strLower "")) = [] := by decide
  have hhigh : (List.map (fun e => dget [("sad", (0.3755 : ℚ))] e) high_risk_emotions).sum
      = 0.3755 := by
    simp [high_risk_emotions, show dget [("sad", (0.3755 : ℚ))] "sad" = 0.3755 from rfl,
      show dget [("sad", (0.3755 : ℚ))] "anger" = 0 from rfl,
      show dget [("sad", (0.3755 : ℚ))] "fear" = 0 from rfl]
  have hmax : max (0.0 : ℚ) (0.3755 * 0.8) = 0.3004 := by
    rw [max_eq_right (by norm_num)]
    norm_num
  have hrec : assess_risk "" [("sad", 0.3755)] =
      { self_harm_risk := 0, severe_stress_risk := 0.3, triggers_found := 0,
        assessment := "Moderate risk" } := by
    simp only [assess_risk, hsh, hds, hfil, hhigh, Bool.false_eq_true, if_false,
      List.length_nil, hmax]
    norm_num [RiskReport.mk.injEq, round3, round_eq]
  rw [hrec]
  norm_num
  decide

/-- C4 (amended): the assessment branches on the pre-rounding risk values:
`"High risk detected"` when the (unrounded, hence also reported) self-harm
risk exceeds 0.5, else `"Moderate risk"` when the unrounded severe stress
value `max(preliminary, 0.8 * (sad + anger + fear))` exceeds 0.3, else
`"Low risk"`. This can differ from branching on the rounded
`severe_stress_risk` field only when rounding crosses the 0.3 boundary. -/
theorem assess_risk_assessment_branches (text : String) (fused : EDist) :
    (assess_risk text fused).assessment =
      (if (assess_risk text fused).self_harm_risk > 0.5 then "High risk detected"
       else if max (if (distress_keywords.any fun k => kwIn k (strLower text)) = true
              then (0.7 : ℚ) else 0.0)
            ((dget fused "sad" + dget fused "anger" + dget fused "fear") * 0.8) > 0.3
          then "Moderate risk" else "Low risk") := by
  cases hsh : (self_harm_keywords.any fun k => kwIn k (strLower text)) with
  | true =>
    simp only [assess_risk, hsh]
    norm_num [round3, round_eq]
  | false =>
    simp only [assess_risk, hsh, Bool.false_eq_true, if_false, high_risk_sum]
    norm_num [round3, round_eq]

/-- C5 counterexample: the fused distribution `sad = 2` has non-negative
scores, yet `assess_risk` reports `severe_stress_risk = 1.6`, outside `[0,1]`. -/
theorem risk_scores_unit_interval_counterexample :
    (assess_risk "" [("sad", 2)]).severe_stress_risk = 1.6 ∧
    ¬ ((assess_risk "" [("sad", 2)]).severe_stress_risk ≤ 1) := by
  have hds : (distress_keywords.any fun k => kwIn k (strLower "")) = false := by decide
  have hhigh : (List.map (fun e => dget [("sad", (2 : ℚ))] e) high_risk_emotions).sum
      = 2 := by
    simp [high_risk_emotions, show dget [("sad", (2 : ℚ))] "sad" = 2 from rfl,
      show dget [("sad", (2 : ℚ))] "anger" = 0 from rfl,
      show dget [("sad", (2 : ℚ))] "fear" = 0 from rfl]
  have hsev : (assess_risk "" [("sad", 2)]).severe_stress_risk = 1.6 := by
    simp only [assess_risk, hds, Bool.false_eq_true, if_false, hhigh]
    rw [max_eq_right (by norm_num)]
    norm_num [round3, round_eq]
  refine ⟨hsev, ?_⟩
  rw [hsev]
  norm_num

/-- C5 (amended): for every text and every fused distribution with
non-negative scores whose `sad + anger + fear` total is at most 1.25, both
risk scores of the report lie in `[0, 1]`. -/
theorem assess_risk_scores_in_unit_interval (text : String) (fused : EDist)
    (hnn : ∀ p ∈ fused, 0 ≤ p.2)
    (hsum : dget fused "sad" + dget fused "anger" + dget fused "fear" ≤ 5 / 4) :
    (0 ≤ (assess_risk text fused).self_harm_risk ∧
      (assess_risk text fused).self_harm_risk ≤ 1) ∧
    (0 ≤ (assess_risk text fused).severe_stress_risk ∧
      (assess_risk text fused).severe_stress_risk ≤ 1) := by
  simp only [assess_risk]
  refine ⟨⟨?_, ?_⟩, ?_, ?_⟩
  · split_ifs <;> norm_num [round3, round_eq]
  · split_ifs <;> norm_num [round3, round_eq]
  · refine le_trans (le_of_eq round3_zero.symm) (round3_mono ?_)
    refine le_trans ?_ (le_max_left _ _)
    split_ifs <;> norm_num
  · refine le_trans (round3_mono ?_) (le_of_eq round3_one)
    refine max_le ?_ ?_
    · split_ifs <;> norm_num
    · rw [high_risk_sum]
      linarith

theorem assess_risk_scores_in_unit_interval_witness :
    (0 ≤ (assess_risk "" [("sad", 1/2)]).self_harm_risk ∧
      (assess_risk "" [("sad", 1/2)]).self_harm_risk ≤ 1) ∧
    (0 ≤ (assess_risk "" [("sad", 1/2)]).severe_stress_risk ∧
      (assess_risk "" [("sad", 1/2)]).severe_stress_risk ≤ 1) :=
  assess_risk_scores_in_unit_interval "" [("sad", 1/2)]
    (by
      intro p hp
      simp only [List.mem_singleton] at hp
      subst hp
      norm_num)
    (by
      norm_num [show dget [("sad", (1/2 : ℚ))] "sad" = 1/2 from rfl,
        show dget [("sad", (1/2 : ℚ))] "anger" = 0 from rfl,
        show dget [("sad", (1/2 : ℚ))] "fear" = 0 from rfl])

/-- C6 counterexample: with empty text but fused `sad = 1`, the report has
`severe_stress_risk = 0.8` and assessment `"Moderate risk"`, so the risk
fields do not all resolve to 0.0 / `"Low risk"` for every fused distribution. -/
theorem assess_risk_empty_text_counterexample :
    (assess_risk "" [("sad", 1)]).severe_stress_risk ≠ 0 ∧
    (assess_risk "" [("sad", 1)]).assessment ≠ "Low risk" := by
  have hsh : (self_harm_keywords.any fun k => kwIn k (strLower "")) = false := by decide
  have hds : (distress_keywords.any fun k => kwIn k (strLower "")) = false := by decide
  have hhigh : (List.map (fun e => dget [("sad", (1 : ℚ))] e) high_risk_emotions).sum
      = 1 := by
    simp [high_risk_emotions, show dget [("sad", (1 : ℚ))] "sad" = 1 from rfl,
      show dget [("sad", (1 : ℚ))] "anger" = 0 from rfl,
      show dget [("sad", (1 : ℚ))] "fear" = 0 from rfl]
  simp only [assess_risk, hsh, hds, Bool.false_eq_true, if_false, hhigh]
  rw [max_eq_right (by norm_num)]
  constructor
  · norm_num [round3, round_eq]
  · rw [if_neg (by norm_num), if_pos (by norm_num)]
    decide

/-- C6 (amended): with empty text, the keyword-driven fields are zero
(`self_harm_risk = 0`, `triggers_found = 0`), and when the fused scores for
sad, anger and fear are all zero — in particular for the all-zero
distribution — the report is fully zero with assessment `"Low risk"`. -/
theorem assess_risk_empty_text_zero (fused : EDist)
    (hs : dget fused "sad" = 0) (ha : dget fused "anger" = 0)
    (hf : dget fused "fear" = 0) :
    (assess_risk "" fused).self_harm_risk = 0 ∧
    (assess_risk "" fused).severe_stress_risk = 0 ∧
    (assess_risk "" fused).triggers_found = 0 ∧
    (assess_risk "" fused).assessment = "Low risk" := by
  have hsh : (self_harm_keywords.any fun k => kwIn k (strLower "")) = false := by decide
  have hds : (distress_keywords.any fun k => kwIn k (strLower "")) = false := by decide
  have hfil : (self_harm_keywords.filter fun k => kwIn k (strLower "")) = [] := by decide
  simp only [assess_risk, hsh, hds, hfil, Bool.false_eq_true, if_false,
    List.length_nil, high_risk_sum, hs, ha, hf]
  norm_num [round3, round_eq, max_self]

theorem assess_risk_empty_text_zero_witness :
    (assess_risk "" [("happy", 1)]).self_harm_risk = 0 ∧
    (assess_risk "" [("happy", 1)]).severe_stress_risk = 0 ∧
    (assess_risk "" [("happy", 1)]).triggers_found = 0 ∧
    (assess_risk "" [("happy", 1)]).assessment = "Low risk" :=
  assess_risk_empty_text_zero [("happy", 1)] rfl rfl rfl

/-- C7: when no self-harm keyword occurs in the lower-cased text,
`assess_risk` reports `self_harm_risk = 0` and an assessment that is never
`"High risk detected"`, whatever the fused emotion scores are. -/
theorem assess_risk_no_self_harm_keywords (text : String) (fused : EDist)
    (h : ∀ kw ∈ self_harm_keywords, kwIn kw (strLower text) = false) :
    (assess_risk text fused).self_harm_risk = 0 ∧
    (assess_risk text fused).assessment ≠ "High risk detected" := by
  have hany : (self_harm_keywords.any fun k => kwIn k (strLower text)) = false := by
    cases hc : (self_harm_keywords.any fun k => kwIn k (strLower text)) with
    | false => rfl
    | true =>
      obtain ⟨k, hk, hpk⟩ := List.any_eq_true.mp hc
      rw [h k hk] at hpk
      simp at hpk
  constructor
  · simp only [assess_risk, hany, Bool.false_eq_true, if_false]
    norm_num [round3, round_eq]
  · simp only [assess_risk, hany, Bool.false_eq_true, if_false]
    rw [if_neg (by norm_num)]
    split_ifs <;> decide

theorem assess_risk_no_self_harm_keywords_witness :
    (assess_risk "hello" []).self_harm_risk = 0 ∧
    (assess_risk "hello" []).assessment ≠ "High risk detected" :=
  assess_risk_no_self_harm_keywords "hello" [] (by decide)

lemma foldl_pick_first_max (ps : List (String × ℚ)) : ∀ p : String × ℚ,
    ∃ k, ((p :: ps)[k]? = some (ps.foldl (fun best q => if best.2 < q.2 then q else best) p)) ∧
      (∀ (j : ℕ) (q : String × ℚ), j < k → (p :: ps)[j]? = some q →
        q.2 < (ps.foldl (fun best q => if best.2 < q.2 then q else best) p).2) ∧
      (∀ q ∈ p :: ps, q.2 ≤ (ps.foldl (fun best q => if best.2 < q.2 then q else best) p).2) := by
  induction ps with
  | nil =>
    intro p
    refine ⟨0, rfl, ?_, ?_⟩
    · intro j q hj _
      omega
    · intro q hq
      simp only [List.foldl_nil]
      rcases List.mem_singleton.mp hq with rfl
      exact le_refl _
  | cons a t ih =>
    intro p
    simp only [List.foldl_cons]
    by_cases hpa : p.2 < a.2
    · rw [if_pos hpa]
      obtain ⟨k, h1, h2, h3⟩ := ih a
      refine ⟨k + 1, ?_, ?_, ?_⟩
      · rw [List.getElem?_cons_succ]
        exact h1
      · intro j q hj hq
        cases j with
        | zero =>
          rw [List.getElem?_cons_zero] at hq
          obtain rfl := Option.some.inj hq
          exact lt_of_lt_of_le hpa (h3 a (List.mem_cons_self a t))
        | succ j1 =>
          rw [List.getElem?_cons_succ] at hq
          exact h2 j1 q (Nat.lt_of_succ_lt_succ hj) hq
      · intro q hq
        rcases List.mem_cons.mp hq with rfl | hq1
        · exact le_of_lt (lt_of_lt_of_le hpa (h3 a (List.mem_cons_self a t)))
        · exact h3 q hq1
    · rw [if_neg hpa]
      have hap : a.2 ≤ p.2 := le_of_not_lt hpa
      obtain ⟨k, h1, h2, h3⟩ := ih p
      cases k with
      | zero =>
        have hres : List.foldl (fun best q => if best.2 < q.2 then q else best) p t = p := by
          rw [List.getElem?_cons_zero] at h1
          exact (Option.some.inj h1).symm
        refine ⟨0, ?_, ?_, ?_⟩
        · rw [List.getElem?_cons_zero, hres]
        · intro j q hj _
          omega
        · intro q hq
          rw [hres]
          rcases List.mem_cons.mp hq with rfl | hq1
          · exact le_refl _
          rcases List.mem_cons.mp hq1 with rfl | hq2
          · exact hap
          · have := h3 q (List.mem_cons_of_mem p hq2)
            rwa [hres] at this
      | succ k1 =>
        rw [List.getElem?_cons_succ] at h1
        refine ⟨k1 + 2, ?_, ?_, ?_⟩
        · rw [List.getElem?_cons_succ, List.getElem?_cons_succ]
          exact h1
        · intro j q hj hq
          cases j with
          | zero =>
            rw [List.getElem?_cons_zero] at hq
            obtain rfl := Option.some.inj hq
            exact h2 0 p (Nat.succ_pos k1) (by rw [List.getElem?_cons_zero])
          | succ j1 =>
            cases j1 with
            | zero =>
              rw [List.getElem?_cons_succ, List.getElem?_cons_zero] at hq
              obtain rfl := Option.some.inj hq
              exact lt_of_le_of_lt hap (h2 0 p (Nat.succ_pos k1) (by rw [List.getElem?_cons_zero]))
            | succ j2 =>
              rw [List.getElem?_cons_succ, List.getElem?_cons_succ] at hq
              refine h2 (j2 + 1) q (by omega) ?_
              rw [List.getElem?_cons_succ]
              exact hq
        · intro q hq
          rcases List.mem_cons.mp hq with rfl | hq1
          · exact h3 q (List.mem_cons_self q t)
          rcases List.mem_cons.mp hq1 with rfl | hq2
          · exact le_trans hap (h3 p (List.mem_cons_self p t))
          · exact h3 q (List.mem_cons_of_mem p hq2)

/-- C8: with no external credential (`none`), or a client whose call raises,
`generate_ai_response` returns exactly the canned fallback string for the
dominant emotion — the table entry for the dominant label, or the generic
default for a label outside the seven — and the dominant pair is the first
item of the distribution attaining the maximum score (strictly greater than
everything before it, no smaller than anything in the list); both failure
causes produce the same result, and no error is surfaced. -/
theorem generate_ai_response_fallback (text : String) (scores : EDist) (err : String)
    (pr : String × ℚ) (hdom : maxPair scores = some pr) :
    generate_ai_response none text scores =
      some ((List.lookup pr.1 fallback_responses).getD generic_fallback) ∧
    generate_ai_response (some fun _ => Except.error err) text scores =
      some ((List.lookup pr.1 fallback_responses).getD generic_fallback) ∧
    (∃ k, scores[k]? = some pr ∧
      (∀ (j : ℕ) (q : String × ℚ), j < k → scores[j]? = some q → q.2 < pr.2) ∧
      (∀ q ∈ scores, q.2 ≤ pr.2)) := by
  refine ⟨?_, ?_, ?_⟩
  · simp only [generate_ai_response, get_fallback_response, hdom]
  · simp only [generate_ai_response, get_fallback_response, hdom]
  · cases scores with
    | nil => simp [maxPair] at hdom
    | cons p ps =>
      have hfold : ps.foldl (fun best q => if best.2 < q.2 then q else best) p = pr := by
        simpa [maxPair] using hdom
      obtain ⟨k, h1, h2, h3⟩ := foldl_pick_first_max ps p
      rw [hfold] at h1 h2 h3
      exact ⟨k, h1, h2, h3⟩

theorem generate_ai_response_fallback_witness :
    generate_ai_response none "hi" [("happy", 0.5), ("sad", 0.5)] =
      some ((List.lookup "happy" fallback_responses).getD generic_fallback) :=
  (generate_ai_response_fallback "hi" [("happy", 0.5), ("sad", 0.5)] "boom"
    ("happy", 0.5) (by norm_num [maxPair])).1

end EmotionCV
